import Mathlib

/-!
Shallow embedding of the `http-server-rust` repository (src/src/main.rs):
a minimal HTTP/1.1 server.  Pure functions of the source are translated
directly; the filesystem and the flate2 compression codec (an external
crate) are modelled as explicit state / oracle parameters, and the
`expect`-panic in `Router::create_file` is an explicit `panicked` outcome.
Bytes (Rust `Vec<u8>` / `&[u8]`) are modelled as `List Nat`, with UTF-8
encoding of strings made explicit.  Rust string primitives (`split`,
`trim`, `to_lowercase`, `lines`, `split_whitespace`, `split_once`,
`starts_with`, `find`) are embedded as executable character-level
functions; whitespace and case mapping are modelled at the ASCII level,
which coincides with Rust on all ASCII input.
-/

/-! ### Rust string primitives, embedded on `List Char` -/

/-- Split a character list at every character satisfying `p`, keeping
empty pieces (the semantics of Rust's `str::split`). -/
def splitByP (p : Char → Bool) : List Char → List (List Char)
  | [] => [[]]
  | c :: cs =>
    match splitByP p cs with
    | [] => [[]]
    | t :: ts => if p c then [] :: t :: ts else (c :: t) :: ts

/-- Rust `s.split(sep)` for a character separator. -/
def rustSplit (s : String) (sep : Char) : List String :=
  (splitByP (fun c => c = sep) s.data).map (fun l => ⟨l⟩)

/-- Rust `str::trim` (ASCII whitespace). -/
def rustTrim (s : String) : String :=
  ⟨((s.data.dropWhile Char.isWhitespace).reverse.dropWhile
      Char.isWhitespace).reverse⟩

/-- ASCII lowercase of one character (models Rust `char::to_lowercase`
on ASCII input). -/
def lowerChar (c : Char) : Char :=
  if 'A' ≤ c ∧ c ≤ 'Z' then Char.ofNat (c.toNat + 32) else c

/-- Rust `str::to_lowercase` (ASCII). -/
def rustToLower (s : String) : String :=
  ⟨s.data.map lowerChar⟩

/-- Rust `s.starts_with(p)`. -/
def rustStartsWith (s p : String) : Bool :=
  p.data.isPrefixOf s.data

/-- Strip one trailing `'\r'` from a `'\n'`-terminated line. -/
def stripCR (l : List Char) : String :=
  if l.getLast? = some '\r' then ⟨l.dropLast⟩ else ⟨l⟩

/-- Rust `str::lines`: split at `'\n'`, do not yield a final empty line
after a trailing newline, and strip one trailing `'\r'` from every
`'\n'`-terminated line (a final line with no newline keeps a trailing
`'\r'`). -/
def rustLines (s : String) : List String :=
  let parts := splitByP (fun c => c = '\n') s.data
  match parts.getLast? with
  | some [] => parts.dropLast.map stripCR
  | some last => parts.dropLast.map stripCR ++ [⟨last⟩]
  | none => []

/-- Rust `str::split_whitespace`: maximal runs of non-whitespace. -/
def rustSplitWhitespace (s : String) : List String :=
  ((splitByP Char.isWhitespace s.data).filter (fun l => l ≠ [])).map
    (fun l => ⟨l⟩)

/-- Rust `s.split_once(sep)` for a character separator: the pieces before
and after the first occurrence, or `none` when absent. -/
def splitOnceChar (sep : Char) : List Char → Option (List Char × List Char)
  | [] => none
  | c :: rest =>
    if c = sep then some ([], rest)
    else (splitOnceChar sep rest).map (fun pr => (c :: pr.1, pr.2))

/-- Index (in characters) of the first occurrence of `pat` in `cs`,
modelling Rust `str::find` on a string pattern. -/
def findSubIdx (pat : List Char) : List Char → Option Nat
  | [] => if pat = [] then some 0 else none
  | c :: cs =>
    if pat.isPrefixOf (c :: cs) then some 0
    else (findSubIdx pat cs).map (fun i => i + 1)

/-- Rust string slice `&s[n..]` (the sliced prefixes in this program are
ASCII, so the byte index coincides with the character index). -/
def sliceFrom (s : String) (n : Nat) : String :=
  ⟨s.data.drop n⟩

/-- UTF-8 encoding of a single character, as byte values.
Models Rust's `str::as_bytes` at the character level. -/
def utf8Bytes (c : Char) : List Nat :=
  let n := c.toNat
  if n < 0x80 then [n]
  else if n < 0x800 then
    [0xC0 ||| (n >>> 6), 0x80 ||| (n &&& 0x3F)]
  else if n < 0x10000 then
    [0xE0 ||| (n >>> 12), 0x80 ||| ((n >>> 6) &&& 0x3F), 0x80 ||| (n &&& 0x3F)]
  else
    [0xF0 ||| (n >>> 18), 0x80 ||| ((n >>> 12) &&& 0x3F),
     0x80 ||| ((n >>> 6) &&& 0x3F), 0x80 ||| (n &&& 0x3F)]

/-- The UTF-8 bytes of a string: Rust's `s.as_bytes().to_vec()`. -/
def strBytes (s : String) : List Nat :=
  (s.data.map utf8Bytes).flatten

/-! ### Content codec -/

/-- `CompressionScheme` enum from the source. -/
inductive CompressionScheme where
  | Gzip
  | Zlib
deriving DecidableEq, Repr

/-- `CompressionUtil::supported_schemes`: the fixed server preference order. -/
def CompressionUtil.supported_schemes : List CompressionScheme :=
  [CompressionScheme.Gzip, CompressionScheme.Zlib]

/-- `CompressionUtil::scheme_to_header`: canonical wire token of a scheme. -/
def CompressionUtil.scheme_to_header : CompressionScheme → String
  | CompressionScheme.Gzip => "gzip"
  | CompressionScheme.Zlib => "zlib"

/-- `CompressionUtil::negotiate_compression`: split the `Accept-Encoding`
value on commas, trim and lowercase each token, and take the first
supported scheme whose canonical token occurs among the tokens. -/
def CompressionUtil.negotiate_compression (accept_encoding : String) :
    Option CompressionScheme :=
  let encodings : List String :=
    (rustSplit accept_encoding ',').map (fun s => rustToLower (rustTrim s))
  CompressionUtil.supported_schemes.find? (fun scheme =>
    encodings.contains (rustToLower (CompressionUtil.scheme_to_header scheme)))

/-- Abstract model of `CompressionUtil::compress` (the flate2 encoders are
an external crate): an arbitrary encoder that may fail with an I/O error. -/
def CompressFn : Type :=
  List Nat → CompressionScheme → Except Unit (List Nat)

/-! ### Message model -/

/-- `ServerConfig` from the source (`directory` as a path string). -/
structure ServerConfig where
  port : Nat
  directory : String
deriving DecidableEq, Repr

/-- `HttpRequest` from the source. -/
structure HttpRequest where
  method : String
  path : String
  headers : List (String × String)
  body : Option String
deriving DecidableEq, Repr

/-- `HttpResponse` from the source (body as raw bytes). -/
structure HttpResponse where
  status_code : Nat
  status_message : String
  headers : List (String × String)
  body : List Nat
deriving DecidableEq, Repr

/-- `HttpResponse::new`. -/
def HttpResponse.new (status_code : Nat) (status_message : String) :
    HttpResponse :=
  { status_code := status_code
    status_message := status_message
    headers := []
    body := [] }

/-- `HttpResponse::with_body`: attach a body and push `Content-Type` and
`Content-Length` (the length of the body just attached). -/
def HttpResponse.with_body (r : HttpResponse) (body : List Nat)
    (content_type : String) : HttpResponse :=
  { r with
    body := body
    headers := r.headers ++
      [("Content-Type", content_type),
       ("Content-Length", toString body.length)] }

/-- `HttpResponse::with_header`. -/
def HttpResponse.with_header (r : HttpResponse) (key value : String) :
    HttpResponse :=
  { r with headers := r.headers ++ [(key, value)] }

/-- `HttpResponse::to_bytes`: status line, rendered headers, blank line,
raw body. -/
def HttpResponse.to_bytes (r : HttpResponse) : List Nat :=
  let status_line :=
    "HTTP/1.1 " ++ toString r.status_code ++ " " ++ r.status_message ++ "\r\n"
  let headers :=
    String.join (r.headers.map (fun kv => kv.1 ++ ": " ++ kv.2 ++ "\r\n"))
  strBytes status_line ++ strBytes headers ++ strBytes "\r\n" ++ r.body

/-! ### Filesystem model

The server's only external state is the filesystem directory used by the
`/files/` routes.  A filesystem is an association list `path ↦ contents`
(the first binding wins, so overwriting prepends), and an `FsOracle` fixes
the outcome of the fallible OS calls `fs::File::create`, `fs::write` and
`fs::read` (the last given that the file exists; a missing file always
fails to read). -/

/-- Filesystem state: association list from path to file contents. -/
abbrev Fs : Type := List (String × List Nat)

/-- Look up a file's contents (first binding wins). -/
def fsRead (fs : Fs) (p : String) : Option (List Nat) :=
  (fs.find? (fun e => e.1 = p)).map Prod.snd

/-- Write (create or overwrite) a file. -/
def fsWrite (fs : Fs) (p : String) (c : List Nat) : Fs :=
  (p, c) :: fs

/-- Outcomes of the OS-level filesystem calls. -/
structure FsOracle where
  createOk : String → Bool
  writeOk : String → Bool
  readOk : String → Bool

/-- Rust `Path::join` (Unix): joining with an absolute path discards the
base directory; otherwise a `/` separator is inserted when needed. -/
def rustPathJoin (dir path : String) : String :=
  if rustStartsWith path "/" then path
  else if dir = "" then path
  else if dir.data.getLast? = some '/' then ⟨dir.data ++ path.data⟩
  else ⟨dir.data ++ '/' :: path.data⟩

/-- Decidable equality for `Except`, used to evaluate parser results. -/
def exceptDecEq {ε α : Type} [DecidableEq ε] [DecidableEq α] :
    (x y : Except ε α) → Decidable (x = y)
  | Except.ok a, Except.ok b =>
    if h : a = b then isTrue (by rw [h]) else isFalse (by simp [h])
  | Except.ok _, Except.error _ => isFalse (by simp)
  | Except.error _, Except.ok _ => isFalse (by simp)
  | Except.error e, Except.error f =>
    if h : e = f then isTrue (by rw [h]) else isFalse (by simp [h])

instance {ε α : Type} [DecidableEq ε] [DecidableEq α] :
    DecidableEq (Except ε α) := exceptDecEq

/-! ### Router -/

/-- Result of routing one request: a response together with the updated
filesystem, or a panic (Rust `expect`) that aborts the worker. -/
inductive RouterResult where
  | ok (resp : HttpResponse) (fs : Fs)
  | panicked (msg : String)
deriving DecidableEq, Repr

/-- `Router::parse_request`.  The error branches of the source carry
`io::Error` messages; the model keeps the message strings. -/
def Router.parse_request (raw_request : String) :
    Except String HttpRequest :=
  match rustLines raw_request with
  | [] => Except.error "Invalid request: No request line"
  | request_line :: rest =>
    let parts := rustSplitWhitespace request_line
    if parts.length = 3 then
      let method := parts[0]!
      let path := parts[1]!
      let headers :=
        (rest.takeWhile (fun l => l ≠ "")).filterMap (fun line =>
          (splitOnceChar ':' line.data).map (fun kv =>
            (rustTrim ⟨kv.1⟩, rustTrim ⟨kv.2⟩)))
      let body :=
        (findSubIdx "\r\n\r\n".data raw_request.data).map (fun body_start =>
          sliceFrom raw_request (body_start + 4))
      Except.ok ⟨method, path, headers, body⟩
    else Except.error "Invalid request line"

/-- The compression scheme `Router::handle_request` computes: the first
header whose lowercased name is `accept-encoding`, negotiated. -/
def Router.request_scheme (req : HttpRequest) : Option CompressionScheme :=
  (req.headers.find? (fun kv => rustToLower kv.1 = "accept-encoding")).bind
    (fun kv => CompressionUtil.negotiate_compression kv.2)

/-- `Router::compress_response`: compress when a scheme was negotiated and
add `Content-Encoding`; on codec failure or no scheme, attach the
uncompressed body. -/
def Router.compress_response (compressFn : CompressFn) (body : List Nat)
    (content_type : String) (compression : Option CompressionScheme) :
    HttpResponse :=
  match compression with
  | some scheme =>
    match compressFn body scheme with
    | Except.ok compressed_body =>
      ((HttpResponse.new 200 "OK").with_body compressed_body
          content_type).with_header "Content-Encoding"
        (CompressionUtil.scheme_to_header scheme)
    | Except.error _ => (HttpResponse.new 200 "OK").with_body body content_type
  | none => (HttpResponse.new 200 "OK").with_body body content_type

/-- `Router::hello_world`. -/
def Router.hello_world (compressFn : CompressFn)
    (compression : Option CompressionScheme) : HttpResponse :=
  Router.compress_response compressFn (strBytes "Hello, World!") "text/plain"
    compression

/-- `Router::user_agent`: the first header named exactly `User-Agent`. -/
def Router.user_agent (compressFn : CompressFn) (req : HttpRequest)
    (compression : Option CompressionScheme) : HttpResponse :=
  match req.headers.find? (fun kv => kv.1 = "User-Agent") with
  | some kv =>
    Router.compress_response compressFn (strBytes kv.2) "text/plain"
      compression
  | none => HttpResponse.new 400 "Bad Request"

/-- `Router::echo`: the path suffix after the 6-character `/echo/`. -/
def Router.echo (compressFn : CompressFn) (path : String)
    (compression : Option CompressionScheme) : HttpResponse :=
  let message := sliceFrom path 6
  Router.compress_response compressFn (strBytes message) "text/plain"
    compression

/-- `Router::serve_file`: read the joined path; 404 on any read failure. -/
def Router.serve_file (oracle : FsOracle) (fs : Fs) (filename : String)
    (config : ServerConfig) : HttpResponse :=
  let file_path := rustPathJoin config.directory filename
  match fsRead fs file_path with
  | some content =>
    if oracle.readOk file_path then
      (HttpResponse.new 200 "OK").with_body content "application/octet-stream"
    else HttpResponse.new 404 "Not Found"
  | none => HttpResponse.new 404 "Not Found"

/-- `Router::create_file`: pre-create the file when absent (panicking via
`expect` if creation fails), then write the body (201 / 500) or answer
400 when the request has no body. -/
def Router.create_file (oracle : FsOracle) (fs : Fs) (filename : String)
    (req : HttpRequest) (config : ServerConfig) : RouterResult :=
  let file_path := rustPathJoin config.directory filename
  let created : Option Fs :=
    if (fsRead fs file_path).isNone then
      if oracle.createOk file_path then some (fsWrite fs file_path [])
      else none
    else some fs
  match created with
  | none => RouterResult.panicked ("Error in creating file " ++ file_path)
  | some fs1 =>
    match req.body with
    | some body =>
      if oracle.writeOk file_path then
        RouterResult.ok (HttpResponse.new 201 "Created")
          (fsWrite fs1 file_path (strBytes body))
      else RouterResult.ok (HttpResponse.new 500 "Internal Server Error") fs1
    | none => RouterResult.ok (HttpResponse.new 400 "Bad Request") fs1

/-- `Router::not_found`. -/
def Router.not_found : HttpResponse :=
  HttpResponse.new 404 "Not Found"

/-- `Router::method_not_allowed`. -/
def Router.method_not_allowed : HttpResponse :=
  HttpResponse.new 405 "Method Not Allowed"

/-- `Router::handle_request`: the prioritized dispatch of the source's
`match` on `(method, path)`. -/
def Router.handle_request (compressFn : CompressFn) (oracle : FsOracle)
    (fs : Fs) (req : HttpRequest) (config : ServerConfig) : RouterResult :=
  let compression_scheme := Router.request_scheme req
  if req.method = "GET" ∧ req.path = "/" then
    RouterResult.ok (Router.hello_world compressFn compression_scheme) fs
  else if req.method = "GET" ∧ req.path = "/user-agent" then
    RouterResult.ok (Router.user_agent compressFn req compression_scheme) fs
  else if rustStartsWith req.path "/echo/" then
    RouterResult.ok (Router.echo compressFn req.path compression_scheme) fs
  else if rustStartsWith req.path "/files/" then
    let filename := sliceFrom req.path 7
    if req.method = "GET" then
      RouterResult.ok (Router.serve_file oracle fs filename config) fs
    else if req.method = "POST" then
      Router.create_file oracle fs filename req config
    else RouterResult.ok Router.method_not_allowed fs
  else RouterResult.ok Router.not_found fs

/-! ### Connection handler -/

/-- Outcome of `ConnectionHandler::handle_client` on one (already decoded)
request text: a parse error closes the connection with no bytes written, a
panic aborts the worker, otherwise the serialized response is written. -/
inductive ClientOutcome where
  | parseError (msg : String)
  | panicked (msg : String)
  | responded (bytes : List Nat) (fs : Fs)
deriving DecidableEq, Repr

/-- `ConnectionHandler::handle_client`, after the socket read and lossy
UTF-8 decode: parse, route, serialize. -/
def ConnectionHandler.handle_client (compressFn : CompressFn)
    (oracle : FsOracle) (fs : Fs) (raw : String) (config : ServerConfig) :
    ClientOutcome :=
  match Router.parse_request raw with
  | Except.error e => ClientOutcome.parseError e
  | Except.ok req =>
    match Router.handle_request compressFn oracle fs req config with
    | RouterResult.panicked m => ClientOutcome.panicked m
    | RouterResult.ok resp fs' => ClientOutcome.responded resp.to_bytes fs'

/-! ### Concrete instances used in examples and witnesses -/

/-- A compression oracle that succeeds, prepending a marker byte. -/
def okCompress : CompressFn :=
  fun b _ => Except.ok (0 :: b)

/-- A compression oracle that always fails. -/
def failCompress : CompressFn :=
  fun _ _ => Except.error ()

/-- A filesystem oracle on which every OS call succeeds. -/
def allOkOracle : FsOracle :=
  ⟨fun _ => true, fun _ => true, fun _ => true⟩

/-- A filesystem oracle on which `fs::File::create` always fails. -/
def createFailOracle : FsOracle :=
  ⟨fun _ => false, fun _ => true, fun _ => true⟩

/-- The value of the first response header with the given name. -/
def headerLookup (r : HttpResponse) (k : String) : Option String :=
  (r.headers.find? (fun kv => kv.1 = k)).map Prod.snd

example : CompressionUtil.negotiate_compression "br, zlib" =
    some CompressionScheme.Zlib := by decide

example : CompressionUtil.negotiate_compression "GZIP , br" =
    some CompressionScheme.Gzip := by decide

example : CompressionUtil.negotiate_compression "identity" = none := by decide

example : strBytes "abc" = [97, 98, 99] := by decide

example : (HttpResponse.new 200 "OK").to_bytes =
    strBytes "HTTP/1.1 200 OK\r\n\r\n" := by decide

example :
    Router.handle_request okCompress allOkOracle []
      ⟨"GET", "/echo/abc123", [], none⟩ ⟨4221, "/tmp"⟩ =
    RouterResult.ok
      ((HttpResponse.new 200 "OK").with_body (strBytes "abc123") "text/plain")
      [] := by decide

example :
    Router.parse_request "GET /index.html HTTP/1.1\r\nHost: x\r\n\r\nhello" =
    Except.ok ⟨"GET", "/index.html", [("Host", "x")], some "hello"⟩ := by
  decide

example :
    Router.parse_request "" =
    Except.error "Invalid request: No request line" := by decide

example :
    Router.handle_request okCompress createFailOracle []
      ⟨"POST", "/files/a.txt", [], some "x"⟩ ⟨4221, "/tmp"⟩ =
    RouterResult.panicked "Error in creating file /tmp/a.txt" := by decide

/-! ### Helper lemmas -/

theorem strBytes_append (s t : String) :
    strBytes (s ++ t) = strBytes s ++ strBytes t := by
  simp [strBytes]

theorem strBytes_foldl_append (l : List String) (init : String) :
    strBytes (l.foldl (fun r s => r ++ s) init) =
      strBytes init ++ (l.map strBytes).flatten := by
  induction l generalizing init with
  | nil => simp
  | cons hd tl ih => simp [ih, strBytes_append]

theorem strBytes_join (l : List String) :
    strBytes (String.join l) = (l.map strBytes).flatten := by
  have h0 : strBytes "" = [] := rfl
  simpa [String.join, h0] using strBytes_foldl_append l ""

theorem headerLookup_new (status : Nat) (msg k : String) :
    headerLookup (HttpResponse.new status msg) k = none := rfl

theorem headerLookup_with_body_CL (status : Nat) (msg ct : String)
    (b : List Nat) :
    headerLookup ((HttpResponse.new status msg).with_body b ct)
      "Content-Length" = some (toString b.length) := rfl

theorem headerLookup_with_body_CE (status : Nat) (msg ct : String)
    (b : List Nat) :
    headerLookup ((HttpResponse.new status msg).with_body b ct)
      "Content-Encoding" = none := rfl

theorem headerLookup_with_header_CL (status : Nat) (msg ct tok : String)
    (b : List Nat) :
    headerLookup (((HttpResponse.new status msg).with_body b ct).with_header
      "Content-Encoding" tok) "Content-Length" = some (toString b.length) :=
  rfl

theorem headerLookup_with_header_CE (status : Nat) (msg ct tok : String)
    (b : List Nat) :
    headerLookup (((HttpResponse.new status msg).with_body b ct).with_header
      "Content-Encoding" tok) "Content-Encoding" = some tok := rfl

/-! ### Claims -/

/-- Claim C7: when a compression scheme was negotiated but the codec fails, the
response still has status 200 with the original uncompressed body,
`Content-Length` equal to the uncompressed length, and no
`Content-Encoding` header; a compression failure never produces an error
response. -/
theorem compress_failure_fallback (compressFn : CompressFn)
    (body : List Nat) (content_type : String) (scheme : CompressionScheme)
    (hfail : compressFn body scheme = Except.error ()) :
    Router.compress_response compressFn body content_type (some scheme) =
      (HttpResponse.new 200 "OK").with_body body content_type ∧
    (Router.compress_response compressFn body content_type
        (some scheme)).status_code = 200 ∧
    (Router.compress_response compressFn body content_type
        (some scheme)).body = body ∧
    headerLookup (Router.compress_response compressFn body content_type
        (some scheme)) "Content-Encoding" = none ∧
    headerLookup (Router.compress_response compressFn body content_type
        (some scheme)) "Content-Length" = some (toString body.length) := by
  have h1 : Router.compress_response compressFn body content_type
      (some scheme) = (HttpResponse.new 200 "OK").with_body body
        content_type := by
    simp [Router.compress_response, hfail]
  refine ⟨h1, ?_, ?_, ?_, ?_⟩ <;> rw [h1] <;> rfl

theorem compress_failure_fallback_witness :
    Router.compress_response failCompress (strBytes "abc123") "text/plain"
        (some CompressionScheme.Gzip) =
      (HttpResponse.new 200 "OK").with_body (strBytes "abc123")
        "text/plain" :=
  (compress_failure_fallback failCompress (strBytes "abc123") "text/plain"
    CompressionScheme.Gzip (by decide)).1

/-- Claim C8: serialization produces exactly the status line
`HTTP/1.1 <code> <message>\r\n`, each header as `<name>: <value>\r\n` in
insertion order, one blank line, then the raw body bytes with nothing
after them. -/
theorem to_bytes_wire_format (r : HttpResponse) :
    r.to_bytes =
      strBytes ("HTTP/1.1 " ++ toString r.status_code ++ " " ++
          r.status_message ++ "\r\n") ++
        ((r.headers.map (fun kv =>
            strBytes (kv.1 ++ ": " ++ kv.2 ++ "\r\n"))).flatten ++
          ([13, 10] ++ r.body)) := by
  have hj := strBytes_join
    (r.headers.map (fun kv => kv.1 ++ ": " ++ kv.2 ++ "\r\n"))
  have hcrlf : strBytes "\r\n" = [13, 10] := rfl
  simp [HttpResponse.to_bytes, hj, hcrlf, List.map_map, Function.comp_def]

/-- Claim C9: a `/files/` request whose suffix after the 7-character prefix is
itself an absolute path resolves to that suffix alone — `Path::join` with
an absolute path discards the configured directory — so the request reads
or writes a file outside the serving root (here `GET /files//etc/hosts`
and `POST /files//etc/hosts` against directory `/tmp` touch
`/etc/hosts`). -/
theorem files_route_absolute_suffix_escape :
    sliceFrom "/files//etc/hosts" 7 = "/etc/hosts" ∧
    rustPathJoin "/tmp" "/etc/hosts" = "/etc/hosts" ∧
    rustStartsWith "/etc/hosts" "/tmp" = false ∧
    Router.handle_request okCompress allOkOracle [("/etc/hosts", [104, 105])]
        ⟨"GET", "/files//etc/hosts", [], none⟩ ⟨4221, "/tmp"⟩ =
      RouterResult.ok ((HttpResponse.new 200 "OK").with_body [104, 105]
        "application/octet-stream") [("/etc/hosts", [104, 105])] ∧
    Router.handle_request okCompress allOkOracle []
        ⟨"POST", "/files//etc/hosts", [], some "pwn"⟩ ⟨4221, "/tmp"⟩ =
      RouterResult.ok (HttpResponse.new 201 "Created")
        [("/etc/hosts", strBytes "pwn"), ("/etc/hosts", [])] := by
  decide

/-- Claim C2: negotiation splits the `Accept-Encoding` value on commas, trims
and lowercases each token, and returns the first supported scheme in the
fixed server order Gzip then Zlib whose canonical token is a member of
the token set; `none` when no supported token matches, and the router
negotiates no scheme when the header is absent; for `"br, zlib"` it
selects Zlib. -/
theorem negotiate_first_server_preference (v : String) (req : HttpRequest)
    (habs : req.headers.find?
      (fun kv => rustToLower kv.1 = "accept-encoding") = none) :
    (CompressionUtil.negotiate_compression v = some CompressionScheme.Gzip ↔
      "gzip" ∈ (rustSplit v ',').map (fun s => rustToLower (rustTrim s))) ∧
    (CompressionUtil.negotiate_compression v = some CompressionScheme.Zlib ↔
      "zlib" ∈ (rustSplit v ',').map (fun s => rustToLower (rustTrim s)) ∧
      "gzip" ∉ (rustSplit v ',').map (fun s => rustToLower (rustTrim s))) ∧
    (CompressionUtil.negotiate_compression v = none ↔
      "gzip" ∉ (rustSplit v ',').map (fun s => rustToLower (rustTrim s)) ∧
      "zlib" ∉ (rustSplit v ',').map (fun s => rustToLower (rustTrim s))) ∧
    Router.request_scheme req = none ∧
    CompressionUtil.negotiate_compression "br, zlib" =
      some CompressionScheme.Zlib := by
  have e1 : rustToLower
      (CompressionUtil.scheme_to_header CompressionScheme.Gzip) = "gzip" :=
    by decide
  have e2 : rustToLower
      (CompressionUtil.scheme_to_header CompressionScheme.Zlib) = "zlib" :=
    by decide
  have key : CompressionUtil.negotiate_compression v =
      if "gzip" ∈ (rustSplit v ',').map (fun s => rustToLower (rustTrim s))
      then some CompressionScheme.Gzip
      else if "zlib" ∈
          (rustSplit v ',').map (fun s => rustToLower (rustTrim s))
      then some CompressionScheme.Zlib
      else none := by
    by_cases hG :
        "gzip" ∈ (rustSplit v ',').map (fun s => rustToLower (rustTrim s)) <;>
      by_cases hZ :
        "zlib" ∈
          (rustSplit v ',').map (fun s => rustToLower (rustTrim s)) <;>
      simp [CompressionUtil.negotiate_compression,
        CompressionUtil.supported_schemes, List.find?, e1, e2, hG, hZ,
        List.elem_iff]
  refine ⟨?_, ?_, ?_, ?_, by decide⟩
  · by_cases hG :
        "gzip" ∈ (rustSplit v ',').map (fun s => rustToLower (rustTrim s)) <;>
      by_cases hZ :
        "zlib" ∈
          (rustSplit v ',').map (fun s => rustToLower (rustTrim s)) <;>
      simp [key, hG, hZ]
  · by_cases hG :
        "gzip" ∈ (rustSplit v ',').map (fun s => rustToLower (rustTrim s)) <;>
      by_cases hZ :
        "zlib" ∈
          (rustSplit v ',').map (fun s => rustToLower (rustTrim s)) <;>
      simp [key, hG, hZ]
  · by_cases hG :
        "gzip" ∈ (rustSplit v ',').map (fun s => rustToLower (rustTrim s)) <;>
      by_cases hZ :
        "zlib" ∈
          (rustSplit v ',').map (fun s => rustToLower (rustTrim s)) <;>
      simp [key, hG, hZ]
  · simp [Router.request_scheme, habs]

theorem negotiate_first_server_preference_witness :
    Router.request_scheme ⟨"GET", "/", [], none⟩ = none ∧
    CompressionUtil.negotiate_compression "br, zlib" =
      some CompressionScheme.Zlib :=
  (negotiate_first_server_preference "br, zlib" ⟨"GET", "/", [], none⟩
    (by decide)).2.2.2

theorem path_ne_of_echo {s : String}
    (h : rustStartsWith s "/echo/" = true) :
    s ≠ "/" ∧ s ≠ "/user-agent" := by
  constructor <;> rintro rfl <;> exact absurd h (by decide)

theorem path_ne_of_files {s : String}
    (h : rustStartsWith s "/files/" = true) :
    s ≠ "/" ∧ s ≠ "/user-agent" := by
  constructor <;> rintro rfl <;> exact absurd h (by decide)

theorem not_echo_of_files {s : String}
    (h : rustStartsWith s "/files/" = true) :
    rustStartsWith s "/echo/" = false := by
  have h1 : "/files/".data <+: s.data := by
    simpa [rustStartsWith, List.isPrefixOf_iff_prefix] using h
  simp only [rustStartsWith, ← Bool.not_eq_true, List.isPrefixOf_iff_prefix]
  intro h2
  have h3 := List.prefix_of_prefix_length_le h2 h1 (by decide)
  exact absurd h3 (by decide)

/-- Claim C4: a raw request text fails to parse — so the connection is closed
with no HTTP response written — exactly when its first line does not
consist of three whitespace-separated tokens (an empty input has no
request line at all and fails); malformed headers or bodies never cause a
parse error. -/
theorem parse_request_three_token_iff (raw : String)
    (compressFn : CompressFn) (oracle : FsOracle) (fs : Fs)
    (config : ServerConfig) :
    ((∃ e, Router.parse_request raw = Except.error e) ↔
      ¬ ∃ l rest, rustLines raw = l :: rest ∧
        (rustSplitWhitespace l).length = 3) ∧
    ((∃ e, Router.parse_request raw = Except.error e) →
      ∃ m, ConnectionHandler.handle_client compressFn oracle fs raw config =
        ClientOutcome.parseError m) := by
  constructor
  · rcases hl : rustLines raw with _ | ⟨l, rest⟩
    · simp [Router.parse_request, hl]
    · by_cases h3 : (rustSplitWhitespace l).length = 3 <;>
        simp [Router.parse_request, hl, h3]
  · rintro ⟨e, he⟩
    exact ⟨e, by simp [ConnectionHandler.handle_client, he]⟩

theorem parse_request_three_token_iff_witness :
    ∃ m, ConnectionHandler.handle_client okCompress allOkOracle []
      "GET /\r\n\r\n" ⟨4221, "/tmp"⟩ = ClientOutcome.parseError m :=
  (parse_request_three_token_iff "GET /\r\n\r\n" okCompress allOkOracle []
    ⟨4221, "/tmp"⟩).2 ⟨"Invalid request line", by decide⟩

/-- Claim C10: a `POST /files/…` request with no body, whose target does not
exist and whose creation succeeds, creates an empty file at the target
path before answering 400 Bad Request — the filesystem is modified on
this error path. -/
theorem post_no_body_creates_empty_file (compressFn : CompressFn)
    (oracle : FsOracle) (fs : Fs) (req : HttpRequest) (config : ServerConfig)
    (hm : req.method = "POST")
    (hp : rustStartsWith req.path "/files/" = true)
    (hb : req.body = none)
    (hne : fsRead fs
      (rustPathJoin config.directory (sliceFrom req.path 7)) = none)
    (hc : oracle.createOk
      (rustPathJoin config.directory (sliceFrom req.path 7)) = true) :
    Router.handle_request compressFn oracle fs req config =
      RouterResult.ok (HttpResponse.new 400 "Bad Request")
        (fsWrite fs (rustPathJoin config.directory (sliceFrom req.path 7))
          []) ∧
    fsRead
      (fsWrite fs (rustPathJoin config.directory (sliceFrom req.path 7)) [])
      (rustPathJoin config.directory (sliceFrom req.path 7)) = some [] ∧
    fsWrite fs (rustPathJoin config.directory (sliceFrom req.path 7)) [] ≠
      fs := by
  refine ⟨?_, by simp [fsRead, fsWrite], List.cons_ne_self _ _⟩
  have hne1 := path_ne_of_files hp
  have hecho := not_echo_of_files hp
  simp [Router.handle_request, hm, hp, hecho, hne1.1, hne1.2,
    Router.create_file, hne, hc, hb]

theorem post_no_body_creates_empty_file_witness :
    Router.handle_request okCompress allOkOracle []
      ⟨"POST", "/files/new.txt", [], none⟩ ⟨4221, "/tmp"⟩ =
      RouterResult.ok (HttpResponse.new 400 "Bad Request")
        (fsWrite [] (rustPathJoin "/tmp" (sliceFrom "/files/new.txt" 7))
          []) ∧
    fsRead
      (fsWrite [] (rustPathJoin "/tmp" (sliceFrom "/files/new.txt" 7)) [])
      (rustPathJoin "/tmp" (sliceFrom "/files/new.txt" 7)) = some [] ∧
    fsWrite [] (rustPathJoin "/tmp" (sliceFrom "/files/new.txt" 7)) [] ≠
      ([] : Fs) :=
  post_no_body_creates_empty_file okCompress allOkOracle []
    ⟨"POST", "/files/new.txt", [], none⟩ ⟨4221, "/tmp"⟩ (by decide)
    (by decide) (by decide) (by decide) (by decide)

theorem compress_response_status (compressFn : CompressFn) (b : List Nat)
    (ct : String) (comp : Option CompressionScheme) :
    (Router.compress_response compressFn b ct comp).status_code = 200 := by
  cases comp with
  | none => rfl
  | some s =>
    cases h : compressFn b s with
    | error e => simp [Router.compress_response, h]; rfl
    | ok out => simp [Router.compress_response, h]; rfl

theorem compress_response_none (compressFn : CompressFn) (b : List Nat)
    (ct : String) :
    Router.compress_response compressFn b ct none =
      (HttpResponse.new 200 "OK").with_body b ct := rfl

theorem compress_response_codec_ok (compressFn : CompressFn) (b out : List Nat)
    (ct : String) (s : CompressionScheme) (h : compressFn b s = Except.ok out) :
    Router.compress_response compressFn b ct (some s) =
      ((HttpResponse.new 200 "OK").with_body out ct).with_header
        "Content-Encoding" (CompressionUtil.scheme_to_header s) := by
  simp [Router.compress_response, h]

theorem compress_response_codec_err (compressFn : CompressFn) (b : List Nat)
    (ct : String) (s : CompressionScheme)
    (h : compressFn b s = Except.error ()) :
    Router.compress_response compressFn b ct (some s) =
      (HttpResponse.new 200 "OK").with_body b ct := by
  simp [Router.compress_response, h]

/-- Claim C6: any request whose path starts with the 6-character prefix
`/echo/`, regardless of method, gets a 200 response whose pre-compression
body is the verbatim path suffix after the prefix, subject to compression
negotiation; `GET /echo/abc123` yields body `"abc123"`. -/
theorem echo_route_spec (compressFn : CompressFn) (oracle : FsOracle)
    (fs : Fs) (req : HttpRequest) (config : ServerConfig)
    (hp : rustStartsWith req.path "/echo/" = true) :
    Router.handle_request compressFn oracle fs req config =
      RouterResult.ok
        (Router.echo compressFn req.path (Router.request_scheme req)) fs ∧
    (Router.echo compressFn req.path (Router.request_scheme req)).status_code
      = 200 ∧
    (Router.request_scheme req = none →
      Router.echo compressFn req.path (Router.request_scheme req) =
        (HttpResponse.new 200 "OK").with_body
          (strBytes (sliceFrom req.path 6)) "text/plain") ∧
    (∀ scheme out, Router.request_scheme req = some scheme →
      compressFn (strBytes (sliceFrom req.path 6)) scheme = Except.ok out →
      Router.echo compressFn req.path (Router.request_scheme req) =
        ((HttpResponse.new 200 "OK").with_body out "text/plain").with_header
          "Content-Encoding" (CompressionUtil.scheme_to_header scheme)) ∧
    (∀ scheme, Router.request_scheme req = some scheme →
      compressFn (strBytes (sliceFrom req.path 6)) scheme =
        Except.error () →
      Router.echo compressFn req.path (Router.request_scheme req) =
        (HttpResponse.new 200 "OK").with_body
          (strBytes (sliceFrom req.path 6)) "text/plain") ∧
    Router.handle_request compressFn oracle fs
        ⟨"GET", "/echo/abc123", [], none⟩ config =
      RouterResult.ok ((HttpResponse.new 200 "OK").with_body
        (strBytes "abc123") "text/plain") fs := by
  have hne1 := path_ne_of_echo hp
  refine ⟨?_, compress_response_status _ _ _ _, ?_, ?_, ?_, ?_⟩
  · simp [Router.handle_request, hp, hne1.1, hne1.2]
  · intro hs; rw [hs]; rfl
  · intro scheme out hs hok
    rw [hs]
    exact compress_response_codec_ok compressFn _ out "text/plain" scheme hok
  · intro scheme hs herr
    rw [hs]
    exact compress_response_codec_err compressFn _ "text/plain" scheme herr
  · rfl

theorem echo_route_spec_witness :
    Router.handle_request okCompress allOkOracle []
      ⟨"GET", "/echo/abc123", [], none⟩ ⟨4221, "/tmp"⟩ =
      RouterResult.ok
        (Router.echo okCompress "/echo/abc123"
          (Router.request_scheme ⟨"GET", "/echo/abc123", [], none⟩)) [] :=
  (echo_route_spec okCompress allOkOracle []
    ⟨"GET", "/echo/abc123", [], none⟩ ⟨4221, "/tmp"⟩ (by decide)).1

/-- Claim C5: `GET /user-agent` answers 200 with the value of the first header
named exactly `User-Agent` (case-sensitive) as body, subject to
compression negotiation; with no such header it answers
`400 Bad Request` with an empty body and no headers at all. -/
theorem user_agent_route_spec (compressFn : CompressFn) (oracle : FsOracle)
    (fs : Fs) (req : HttpRequest) (config : ServerConfig)
    (hm : req.method = "GET") (hp : req.path = "/user-agent") :
    Router.handle_request compressFn oracle fs req config =
      RouterResult.ok
        (Router.user_agent compressFn req (Router.request_scheme req)) fs ∧
    (∀ k v, req.headers.find? (fun kv => kv.1 = "User-Agent") =
        some (k, v) →
      (Router.user_agent compressFn req
          (Router.request_scheme req)).status_code = 200 ∧
      (Router.request_scheme req = none →
        Router.user_agent compressFn req (Router.request_scheme req) =
          (HttpResponse.new 200 "OK").with_body (strBytes v) "text/plain") ∧
      (∀ scheme out, Router.request_scheme req = some scheme →
        compressFn (strBytes v) scheme = Except.ok out →
        Router.user_agent compressFn req (Router.request_scheme req) =
          ((HttpResponse.new 200 "OK").with_body out
            "text/plain").with_header "Content-Encoding"
            (CompressionUtil.scheme_to_header scheme)) ∧
      (∀ scheme, Router.request_scheme req = some scheme →
        compressFn (strBytes v) scheme = Except.error () →
        Router.user_agent compressFn req (Router.request_scheme req) =
          (HttpResponse.new 200 "OK").with_body (strBytes v)
            "text/plain")) ∧
    (req.headers.find? (fun kv => kv.1 = "User-Agent") = none →
      Router.user_agent compressFn req (Router.request_scheme req) =
        HttpResponse.new 400 "Bad Request" ∧
      (HttpResponse.new 400 "Bad Request").headers = [] ∧
      (HttpResponse.new 400 "Bad Request").body = []) := by
  refine ⟨?_, ?_, ?_⟩
  · have hroot : req.path ≠ "/" := by rw [hp]; decide
    simp [Router.handle_request, hm, hp, hroot]
  · intro k v hfind
    have hua : Router.user_agent compressFn req (Router.request_scheme req) =
        Router.compress_response compressFn (strBytes v) "text/plain"
          (Router.request_scheme req) := by
      simp [Router.user_agent, hfind]
    refine ⟨by rw [hua]; exact compress_response_status _ _ _ _, ?_, ?_, ?_⟩
    · intro hs; rw [hua, hs]; rfl
    · intro scheme out hs hok
      rw [hua, hs]
      exact compress_response_codec_ok compressFn _ out "text/plain" scheme
        hok
    · intro scheme hs herr
      rw [hua, hs]
      exact compress_response_codec_err compressFn _ "text/plain" scheme herr
  · intro hfind
    exact ⟨by simp [Router.user_agent, hfind], rfl, rfl⟩

theorem user_agent_route_spec_witness :
    Router.handle_request okCompress allOkOracle []
      ⟨"GET", "/user-agent", [("User-Agent", "test-client/1.0")], none⟩
      ⟨4221, "/tmp"⟩ =
      RouterResult.ok
        (Router.user_agent okCompress
          ⟨"GET", "/user-agent", [("User-Agent", "test-client/1.0")], none⟩
          (Router.request_scheme
            ⟨"GET", "/user-agent", [("User-Agent", "test-client/1.0")],
              none⟩)) [] :=
  (user_agent_route_spec okCompress allOkOracle []
    ⟨"GET", "/user-agent", [("User-Agent", "test-client/1.0")], none⟩
    ⟨4221, "/tmp"⟩ (by decide) (by decide)).1

/-- Claim C1 (counterexample to the claim as stated): a `POST /files/a.txt`
request — carrying a body — whose target file does not exist and whose
creation fails is not answered with a structured HTTP response: the
handler panics (`expect`) and the connection aborts. -/
theorem create_file_precreation_panic :
    Router.handle_request okCompress createFailOracle []
      ⟨"POST", "/files/a.txt", [], some "x"⟩ ⟨4221, "/tmp"⟩ =
    RouterResult.panicked "Error in creating file /tmp/a.txt" := by decide

/-- Claim C1 (amended): for every `POST` request with path prefix `/files/`,
provided the target file already exists or its pre-creation succeeds, the
router creates the target file if it did not exist, overwrites it with
the request body, and returns a structured response: 201 Created on
success, 400 Bad Request when the request carried no body, 500 Internal
Server Error when the write fails.  (When the target is missing and its
creation fails, the handler instead panics — see the counterexample.) -/
theorem create_file_structured_contract (compressFn : CompressFn)
    (oracle : FsOracle) (fs : Fs) (req : HttpRequest) (config : ServerConfig)
    (hm : req.method = "POST")
    (hp : rustStartsWith req.path "/files/" = true)
    (hpre : fsRead fs
        (rustPathJoin config.directory (sliceFrom req.path 7)) ≠ none ∨
      oracle.createOk
        (rustPathJoin config.directory (sliceFrom req.path 7)) = true) :
    ∃ resp fs',
      Router.handle_request compressFn oracle fs req config =
        RouterResult.ok resp fs' ∧
      (req.body = none → resp = HttpResponse.new 400 "Bad Request") ∧
      (∀ b, req.body = some b →
        oracle.writeOk
          (rustPathJoin config.directory (sliceFrom req.path 7)) = true →
        resp = HttpResponse.new 201 "Created" ∧
        fsRead fs' (rustPathJoin config.directory (sliceFrom req.path 7)) =
          some (strBytes b)) ∧
      (∀ b, req.body = some b →
        oracle.writeOk
          (rustPathJoin config.directory (sliceFrom req.path 7)) = false →
        resp = HttpResponse.new 500 "Internal Server Error") ∧
      (fsRead fs (rustPathJoin config.directory (sliceFrom req.path 7)) =
          none →
        fsRead fs' (rustPathJoin config.directory (sliceFrom req.path 7)) ≠
          none) := by
  have hne1 := path_ne_of_files hp
  have hecho := not_echo_of_files hp
  have hdispatch : Router.handle_request compressFn oracle fs req config =
      Router.create_file oracle fs (sliceFrom req.path 7) req config := by
    simp [Router.handle_request, hm, hp, hecho, hne1.1, hne1.2]
  rw [hdispatch]
  rcases hex : fsRead fs
      (rustPathJoin config.directory (sliceFrom req.path 7)) with _ | c
  · -- target missing: pre-creation runs, and succeeds by `hpre`
    have hcreate : oracle.createOk
        (rustPathJoin config.directory (sliceFrom req.path 7)) = true := by
      rcases hpre with hpre | hpre
      · exact absurd hex hpre
      · exact hpre
    rcases hb : req.body with _ | b
    · refine ⟨HttpResponse.new 400 "Bad Request",
        fsWrite fs (rustPathJoin config.directory (sliceFrom req.path 7)) [],
        ?_, fun _ => rfl, ?_, ?_, ?_⟩
      · simp [Router.create_file, hex, hcreate, hb]
      · intro b hb' _; simp [hb] at hb'
      · intro b hb' _; simp [hb] at hb'
      · intro _; simp [fsRead, fsWrite]
    · by_cases hw : oracle.writeOk
          (rustPathJoin config.directory (sliceFrom req.path 7)) = true
      · refine ⟨HttpResponse.new 201 "Created",
          fsWrite (fsWrite fs
            (rustPathJoin config.directory (sliceFrom req.path 7)) [])
            (rustPathJoin config.directory (sliceFrom req.path 7))
            (strBytes b), ?_, ?_, ?_, ?_, ?_⟩
        · simp [Router.create_file, hex, hcreate, hb, hw]
        · intro hb'; simp [hb] at hb'
        · intro b' hb' _
          injection hb' with hbb; subst hbb
          exact ⟨rfl, by simp [fsRead, fsWrite]⟩
        · intro b' _ hw'; simp [hw] at hw'
        · intro _; simp [fsRead, fsWrite]
      · rw [Bool.not_eq_true] at hw
        refine ⟨HttpResponse.new 500 "Internal Server Error",
          fsWrite fs (rustPathJoin config.directory (sliceFrom req.path 7))
            [], ?_, ?_, ?_, ?_, ?_⟩
        · simp [Router.create_file, hex, hcreate, hb, hw]
        · intro hb'; simp [hb] at hb'
        · intro b' _ hw''; simp [hw] at hw''
        · intro b' _ _; rfl
        · intro _; simp [fsRead, fsWrite]
  · -- target exists: no pre-creation
    rcases hb : req.body with _ | b
    · refine ⟨HttpResponse.new 400 "Bad Request", fs, ?_,
        fun _ => rfl, ?_, ?_, ?_⟩
      · simp [Router.create_file, hex, hb]
      · intro b hb' _; simp [hb] at hb'
      · intro b hb' _; simp [hb] at hb'
      · intro hx; simp [hex] at hx
    · by_cases hw : oracle.writeOk
          (rustPathJoin config.directory (sliceFrom req.path 7)) = true
      · refine ⟨HttpResponse.new 201 "Created",
          fsWrite fs (rustPathJoin config.directory (sliceFrom req.path 7))
            (strBytes b), ?_, ?_, ?_, ?_, ?_⟩
        · simp [Router.create_file, hex, hb, hw]
        · intro hb'; simp [hb] at hb'
        · intro b' hb' _
          injection hb' with hbb; subst hbb
          exact ⟨rfl, by simp [fsRead, fsWrite]⟩
        · intro b' _ hw'; simp [hw] at hw'
        · intro hx; simp [hex] at hx
      · rw [Bool.not_eq_true] at hw
        refine ⟨HttpResponse.new 500 "Internal Server Error", fs, ?_, ?_,
          ?_, ?_, ?_⟩
        · simp [Router.create_file, hex, hb, hw]
        · intro hb'; simp [hb] at hb'
        · intro b' _ hw''; simp [hw] at hw''
        · intro b' _ _; rfl
        · intro hx; simp [hex] at hx

theorem create_file_structured_contract_witness :
    ∃ resp fs',
      Router.handle_request okCompress allOkOracle []
        ⟨"POST", "/files/new.txt", [], some "hello"⟩ ⟨4221, "/tmp"⟩ =
        RouterResult.ok resp fs' ∧
      ((⟨"POST", "/files/new.txt", [], some "hello"⟩ : HttpRequest).body =
          none →
        resp = HttpResponse.new 400 "Bad Request") ∧
      (∀ b, (⟨"POST", "/files/new.txt", [], some "hello"⟩ :
            HttpRequest).body = some b →
        allOkOracle.writeOk
          (rustPathJoin "/tmp" (sliceFrom "/files/new.txt" 7)) = true →
        resp = HttpResponse.new 201 "Created" ∧
        fsRead fs' (rustPathJoin "/tmp" (sliceFrom "/files/new.txt" 7)) =
          some (strBytes b)) ∧
      (∀ b, (⟨"POST", "/files/new.txt", [], some "hello"⟩ :
            HttpRequest).body = some b →
        allOkOracle.writeOk
          (rustPathJoin "/tmp" (sliceFrom "/files/new.txt" 7)) = false →
        resp = HttpResponse.new 500 "Internal Server Error") ∧
      (fsRead [] (rustPathJoin "/tmp" (sliceFrom "/files/new.txt" 7)) =
          none →
        fsRead fs' (rustPathJoin "/tmp" (sliceFrom "/files/new.txt" 7)) ≠
          none) :=
  create_file_structured_contract okCompress allOkOracle []
    ⟨"POST", "/files/new.txt", [], some "hello"⟩ ⟨4221, "/tmp"⟩ (by decide)
    (by decide) (Or.inr (by decide))

theorem compress_response_CL (compressFn : CompressFn) (b : List Nat)
    (ct : String) (comp : Option CompressionScheme) :
    headerLookup (Router.compress_response compressFn b ct comp)
        "Content-Length" =
      some (toString
        (Router.compress_response compressFn b ct comp).body.length) := by
  cases comp with
  | none => rfl
  | some s =>
    cases hc : compressFn b s with
    | error e =>
      rw [compress_response_codec_err compressFn b ct s (by cases e; exact hc)]
      rfl
    | ok out =>
      rw [compress_response_codec_ok compressFn b out ct s hc]
      rfl

/-- Claim C3: every response the router produces carries a `Content-Length`
equal to the byte length of the body actually attached — measured after
compression when compression was applied — or carries no body and no
`Content-Length` header at all. -/
theorem content_length_matches_body (compressFn : CompressFn)
    (oracle : FsOracle) (fs fs' : Fs) (req : HttpRequest)
    (config : ServerConfig) (resp : HttpResponse)
    (h : Router.handle_request compressFn oracle fs req config =
      RouterResult.ok resp fs') :
    headerLookup resp "Content-Length" = some (toString resp.body.length) ∨
    (headerLookup resp "Content-Length" = none ∧ resp.body = []) := by
  simp only [Router.handle_request] at h
  split at h
  · -- GET /
    injection h with h1 h2; subst h1
    exact Or.inl (compress_response_CL compressFn _ "text/plain" _)
  · split at h
    · -- GET /user-agent
      injection h with h1 h2; subst h1
      rcases hf : req.headers.find? (fun kv => kv.1 = "User-Agent")
        with _ | kv
      · simp only [Router.user_agent, hf]
        exact Or.inr ⟨rfl, rfl⟩
      · simp only [Router.user_agent, hf]
        exact Or.inl (compress_response_CL compressFn _ "text/plain" _)
    · split at h
      · -- /echo/ prefix
        injection h with h1 h2; subst h1
        exact Or.inl (compress_response_CL compressFn _ "text/plain" _)
      · split at h
        · -- /files/ prefix
          split at h
          · -- GET: serve_file
            injection h with h1 h2; subst h1
            rcases hr : fsRead fs
                (rustPathJoin config.directory (sliceFrom req.path 7))
              with _ | c
            · simp only [Router.serve_file, hr]
              exact Or.inr ⟨rfl, rfl⟩
            · simp only [Router.serve_file, hr]
              split
              · exact Or.inl rfl
              · exact Or.inr ⟨rfl, rfl⟩
          · split at h
            · -- POST: create_file
              simp only [Router.create_file] at h
              split at h
              · simp at h
              · split at h
                · split at h
                  · injection h with h1 h2; subst h1
                    exact Or.inr ⟨rfl, rfl⟩
                  · injection h with h1 h2; subst h1
                    exact Or.inr ⟨rfl, rfl⟩
                · injection h with h1 h2; subst h1
                  exact Or.inr ⟨rfl, rfl⟩
            · -- any other method: 405
              injection h with h1 h2; subst h1
              exact Or.inr ⟨rfl, rfl⟩
        · -- fallback 404
          injection h with h1 h2; subst h1
          exact Or.inr ⟨rfl, rfl⟩

theorem content_length_matches_body_witness :
    headerLookup ((HttpResponse.new 200 "OK").with_body (strBytes "abc123")
        "text/plain") "Content-Length" =
      some (toString ((HttpResponse.new 200 "OK").with_body
        (strBytes "abc123") "text/plain").body.length) ∨
    (headerLookup ((HttpResponse.new 200 "OK").with_body (strBytes "abc123")
        "text/plain") "Content-Length" = none ∧
      ((HttpResponse.new 200 "OK").with_body (strBytes "abc123")
        "text/plain").body = []) :=
  content_length_matches_body okCompress allOkOracle [] []
    ⟨"GET", "/echo/abc123", [], none⟩ ⟨4221, "/tmp"⟩
    ((HttpResponse.new 200 "OK").with_body (strBytes "abc123") "text/plain")
    (by decide)
